import Mathlib

/-!
Shallow embedding of the `monitor` package of shuvo-paul/sitemonitor
(Site / Manager, file src/cmd/migrate/migrate.go, second document) and of
the notification Subject exercised by the tests in src/unnamed/part_001.

Go `time.Time` and `time.Duration` are modelled as `Nat`; the wall clock
(`time.Now()`) and the HTTP response to `client.Get` are passed in as
explicit parameters, since they are the points where the code touches the
outside world.  Mutex acquisitions are recorded as an explicit event trace
so that statements about which lock an operation holds can be expressed.
-/

namespace Monitor

/-- The four status string constants of the `monitor` package. -/
def statusUp : String := "up"

def statusError : String := "error"

def statusDown : String := "down"

def statusPaused : String := "paused"

/-- `ClientConfig` holds HTTP client configuration (durations as `Nat`). -/
structure ClientConfig where
  timeout : Nat
  maxIdleConns : Nat
  idleConnTimeout : Nat
deriving Repr, DecidableEq

/-- `DefaultClientConfig`: 10 s timeout, 100 idle conns, 90 s idle timeout. -/
def DefaultClientConfig : ClientConfig :=
  { timeout := 10, maxIdleConns := 100, idleConnTimeout := 90 }

/-- The `Site` struct.  `client` is flattened to the two knobs the code
copies from the `ClientConfig` into the `http.Client`/`http.Transport`;
`cancelFunc` is modelled by the flag `cancelSet` (whether a cancellation
handle has been stored).  The `sync.RWMutex` has no data content. -/
structure Site where
  ID : Int
  URL : String
  Status : String
  Enabled : Bool
  Interval : Nat
  StatusChangedAt : Nat
  cancelSet : Bool
  clientTimeout : Nat
  transportMaxIdleConns : Nat
  transportIdleConnTimeout : Nat
deriving Repr, DecidableEq

/-- Lock-acquisition events, for stating which mutex an operation takes. -/
inductive LockEvent where
  | acquireRegistry
  | releaseRegistry
  | acquireSite (id : Int)
  | releaseSite (id : Int)
deriving Repr, DecidableEq

/-- `NewSite`: builds the transport and client from `config` and returns a
`Site` with `Enabled: true`.  Fields not mentioned in the Go composite
literal (`Status`, `StatusChangedAt`, `cancelFunc`) get their zero values. -/
def NewSite (id : Int) (url : String) (interval : Nat) (config : ClientConfig) : Site :=
  { ID := id
    URL := url
    Status := ""
    Enabled := true
    Interval := interval
    StatusChangedAt := 0
    cancelSet := false
    clientTimeout := config.timeout
    transportMaxIdleConns := config.maxIdleConns
    transportIdleConnTimeout := config.idleConnTimeout }

/-- `Site.updateStatus`: under the site's own lock, if the stored status
differs from `status`, write `status` and stamp `StatusChangedAt` with the
current time `now`; otherwise change nothing.  Returns the updated site
and the lock trace of the call. -/
def Site.updateStatus (s : Site) (status : String) (now : Nat) :
    Site × List LockEvent :=
  (if s.Status ≠ status then
    { s with Status := status, StatusChangedAt := now }
   else s,
   [LockEvent.acquireSite s.ID, LockEvent.releaseSite s.ID])

/-- Outcome of `client.Get`: either a transport-level failure (DNS,
connect, timeout — `err != nil` in the code) or a response carrying a
status code. -/
inductive HttpResult where
  | transportError
  | response (statusCode : Nat)
deriving Repr, DecidableEq

/-- The error values `Site.Check` can return. -/
inductive CheckError where
  | connectionError
  | httpError (statusCode : Nat)
deriving Repr, DecidableEq

/-- `Site.Check`: classifies the result `r` of the GET issued with the
site's own client; `now` is the wall clock read by `updateStatus`.
Returns the updated site, the returned error (`none` = `nil`), and the
lock trace. -/
def Site.Check (s : Site) (r : HttpResult) (now : Nat) :
    Site × Option CheckError × List LockEvent :=
  match r with
  | HttpResult.transportError =>
      ((s.updateStatus statusError now).1,
       some CheckError.connectionError,
       (s.updateStatus statusError now).2)
  | HttpResult.response code =>
      if code ≥ 400 then
        ((s.updateStatus statusDown now).1,
         some (CheckError.httpError code),
         (s.updateStatus statusDown now).2)
      else
        ((s.updateStatus statusUp now).1,
         none,
         (s.updateStatus statusUp now).2)

/-- A live polling task spawned by `RegisterSite`: the site ID it polls and
whether its cancellation handle (`context.CancelFunc`) has been invoked. -/
structure Task where
  id : Int
  cancelled : Bool
deriving Repr, DecidableEq

/-- The `Manager`: a registry map from site ID to `Site` (association list)
and the set of live polling tasks.  The `sync.Mutex` has no data content;
its acquisitions appear in each operation's lock trace. -/
structure Manager where
  sites : List (Int × Site)
  tasks : List Task
deriving Repr, DecidableEq

/-- `NewManager` starts with an empty registry. -/
def NewManager : Manager := { sites := [], tasks := [] }

/-- Go map lookup `m.sites[id]` on the association-list model. -/
def lookupSite : List (Int × Site) → Int → Option Site
  | [], _ => none
  | (k, s) :: rest, id => if k = id then some s else lookupSite rest id

/-- Go `delete(m.sites, id)` on the association-list model. -/
def deleteSite : List (Int × Site) → Int → List (Int × Site)
  | [], _ => []
  | (k, s) :: rest, id =>
      if k = id then deleteSite rest id else (k, s) :: deleteSite rest id

/-- The in-place mutation `site.Enabled = b` seen through the registry
(the Go map stores a pointer, so the stored entry changes too). -/
def setSiteEnabled : List (Int × Site) → Int → Bool → List (Int × Site)
  | [], _, _ => []
  | (k, s) :: rest, id, b =>
      if k = id then (k, { s with Enabled := b }) :: setSiteEnabled rest id b
      else (k, s) :: setSiteEnabled rest id b

/-- Result of `Manager.RegisterSite`: the returned error (`none` = `nil`),
the manager state afterwards, the lock trace, and the log lines. -/
structure RegisterResult where
  err : Option String
  mgr : Manager
  trace : List LockEvent
  logs : List String
deriving Repr, DecidableEq

/-- `Manager.RegisterSite`: under the registry lock, fail if the ID is
already present (no side effect); otherwise store the cancellation handle
on the site, insert it into the registry, spawn one polling task, and log
that monitoring started. -/
def Manager.RegisterSite (m : Manager) (site : Site) : RegisterResult :=
  if (lookupSite m.sites site.ID).isSome then
    { err := some ("site " ++ site.URL ++ " already being monitored")
      mgr := m
      trace := [LockEvent.acquireRegistry, LockEvent.releaseRegistry]
      logs := [] }
  else
    let site2 := { site with cancelSet := true }
    { err := none
      mgr := { sites := m.sites ++ [(site.ID, site2)]
               tasks := m.tasks ++ [{ id := site.ID, cancelled := false }] }
      trace := [LockEvent.acquireRegistry, LockEvent.releaseRegistry]
      logs := ["Monitoring started: " ++ site.URL] }

/-- Result of the `Manager` operations that return nothing in Go. -/
structure OpResult where
  mgr : Manager
  trace : List LockEvent
  logs : List String
deriving Repr, DecidableEq

/-- `Manager.RevokeSite`: under the registry lock, if the ID exists,
invoke its cancellation handle, `delete` it from the registry, and log.
In the absent branch the code logs `site.URL` where `site` is the nil
`*Site` zero value of the failed map lookup, a nil-pointer dereference
that aborts the call: modelled as `none`. -/
def Manager.RevokeSite (m : Manager) (siteID : Int) : Option OpResult :=
  match lookupSite m.sites siteID with
  | some site =>
      some { mgr := { sites := deleteSite m.sites siteID
                      tasks := m.tasks.map fun t =>
                        if t.id = siteID then { t with cancelled := true } else t }
             trace := [LockEvent.acquireRegistry, LockEvent.releaseRegistry]
             logs := ["Monitoring Stopped: " ++ site.URL] }
  | none => none

/-- `Manager.EnableSite`: under the registry lock, if the ID exists set
`site.Enabled = true` and log; otherwise do nothing (no log line). -/
def Manager.EnableSite (m : Manager) (siteID : Int) : OpResult :=
  match lookupSite m.sites siteID with
  | some site =>
      { mgr := { m with sites := setSiteEnabled m.sites siteID true }
        trace := [LockEvent.acquireRegistry, LockEvent.releaseRegistry]
        logs := ["Site monitoring enabled: " ++ site.URL] }
  | none =>
      { mgr := m
        trace := [LockEvent.acquireRegistry, LockEvent.releaseRegistry]
        logs := [] }

/-- `Manager.DisableSite`: under the registry lock, if the ID exists set
`site.Enabled = false` and log; otherwise do nothing (no log line). -/
def Manager.DisableSite (m : Manager) (siteID : Int) : OpResult :=
  match lookupSite m.sites siteID with
  | some site =>
      { mgr := { m with sites := setSiteEnabled m.sites siteID false }
        trace := [LockEvent.acquireRegistry, LockEvent.releaseRegistry]
        logs := ["Site monitoring disabled: " ++ site.URL] }
  | none =>
      { mgr := m
        trace := [LockEvent.acquireRegistry, LockEvent.releaseRegistry]
        logs := [] }

/-- One `ticker.C` wake of the polling goroutine: if the site is disabled
the wake is a no-op (`continue`); otherwise run `Check` (an error is only
logged, the loop continues).  Returns the site afterwards, whether a
`Check` call occurred, and the lock trace. -/
def tickWake (site : Site) (r : HttpResult) (now : Nat) :
    Site × Bool × List LockEvent :=
  if !site.Enabled then (site, false, [])
  else ((site.Check r now).1, true, (site.Check r now).2.2)

/-- Runs the polling loop over a list of ticker wakes (each wake carries
the HTTP outcome and the wall clock of that wake), counting `Check` calls. -/
def runTicks (site : Site) : List (HttpResult × Nat) → Site × Nat
  | [] => (site, 0)
  | (r, now) :: rest =>
      ((runTicks (tickWake site r now).1 rest).1,
       (if (tickWake site r now).2.1 then 1 else 0)
         + (runTicks (tickWake site r now).1 rest).2)

/-- The `ctx.Done()` branch of the polling goroutine: the task removes its
own ID from the registry under the registry lock and exits. -/
def cancelWake (m : Manager) (siteID : Int) : Manager × List LockEvent :=
  ({ sites := deleteSite m.sites siteID
     tasks := m.tasks.filter fun t => t.id ≠ siteID },
   [LockEvent.acquireRegistry, LockEvent.releaseRegistry])

end Monitor

namespace Notification

/-- `notification.State`, the event payload handed to observers. -/
structure State where
  Name : String
  Status : String
  Message : String
  UpdatedAt : Nat
deriving Repr, DecidableEq

/-- `mockObserver` from `TestNotifierService_Subject`: fails with `err`
when it is set, otherwise records the received state. -/
structure MockObserver where
  state : Option State
  err : Option String
deriving Repr, DecidableEq

/-- `newMockObserver`: no state received yet. -/
def newMockObserver (err : Option String) : MockObserver :=
  { state := none, err := err }

/-- `mockObserver.Notify`: returns its configured error if set; otherwise
stores the state and succeeds. -/
def MockObserver.notify (m : MockObserver) (state : State) :
    MockObserver × Option String :=
  match m.err with
  | some e => (m, some e)
  | none => ({ m with state := some state }, none)

/-- The Subject holds the set of attached observers. -/
structure Subject where
  observers : List MockObserver
deriving Repr, DecidableEq

/-- `notification.NewSubject`: empty observer set. -/
def NewSubject : Subject := { observers := [] }

/-- `Subject.Attach` appends to the observer set. -/
def Subject.Attach (s : Subject) (o : MockObserver) : Subject :=
  { s with observers := s.observers ++ [o] }

/-- Helper for `Subject.Notify`: invoke each observer in order with the
same state, returning the updated observers and the collected errors. -/
def notifyAll : List MockObserver → State → List MockObserver × List String
  | [], _ => ([], [])
  | o :: rest, st =>
      ((o.notify st).1 :: (notifyAll rest st).1,
       match (o.notify st).2 with
       | some msg => msg :: (notifyAll rest st).2
       | none => (notifyAll rest st).2)

/-- Modelled from the spec: the source of `notification.Subject.Notify`
is not under src (only its test `TestNotifierService_Subject` is).  Per
spec §4.3, `Notify(state)` invokes every attached observer with the same
state value; an observer that fails contributes its error to the returned
list but does not prevent the remaining observers from being invoked, and
an empty returned list means full delivery success. -/
def Subject.Notify (s : Subject) (st : State) : Subject × List String :=
  ({ s with observers := (notifyAll s.observers st).1 },
   (notifyAll s.observers st).2)

end Notification

namespace Monitor

/-! Concrete fixtures used by witnesses and counterexamples. -/

/-- A freshly constructed site with ID 1. -/
def demoSite : Site := NewSite 1 "http://a" 5 DefaultClientConfig

/-- `demoSite` as it is stored in the registry by `RegisterSite` (the
cancellation handle has been set on it). -/
def demoSiteReg : Site := { demoSite with cancelSet := true }

/-- The manager obtained by registering `demoSite` into a fresh manager. -/
def demoMgr : Manager := (NewManager.RegisterSite demoSite).mgr

/-! Helper lemmas about the registry association list. -/

/-- After `delete`, the deleted key is absent. -/
theorem lookupSite_deleteSite (l : List (Int × Site)) (id : Int) :
    lookupSite (deleteSite l id) id = none := by
  induction l with
  | nil => rfl
  | cons p rest ih =>
      obtain ⟨k, s⟩ := p
      by_cases hk : k = id
      · simpa [deleteSite, hk] using ih
      · simpa [deleteSite, lookupSite, hk] using ih

/-- `setSiteEnabled` rewrites exactly the looked-up entry's flag. -/
theorem lookupSite_setSiteEnabled (l : List (Int × Site)) (id : Int) (b : Bool) :
    lookupSite (setSiteEnabled l id b) id
      = (lookupSite l id).map fun s => { s with Enabled := b } := by
  induction l with
  | nil => rfl
  | cons p rest ih =>
      obtain ⟨k, s⟩ := p
      by_cases hk : k = id
      · simp [setSiteEnabled, lookupSite, hk]
      · simpa [setSiteEnabled, lookupSite, hk] using ih

/-- `updateStatus` always lands on the requested status value. -/
theorem updateStatus_fst_Status (s : Site) (st : String) (now : Nat) :
    ((s.updateStatus st now).1).Status = st := by
  by_cases h : s.Status = st
  · simp [Site.updateStatus, h]
  · simp [Site.updateStatus, h]

/-- C1: a single `Check` call classifies its outcome exactly as: a
transport-level failure makes the status `error` and returns the
connection error to the caller; a response with status code ≥ 400 makes
the status `down` and returns an HTTP error; a response with status code
< 400 makes the status `up` and returns `nil`. -/
theorem check_outcome_classification (s : Site) (r : HttpResult) (now : Nat) :
    (r = HttpResult.transportError →
      (s.Check r now).1.Status = statusError
      ∧ (s.Check r now).2.1 = some CheckError.connectionError)
    ∧ (∀ code, r = HttpResult.response code →
        (400 ≤ code →
          (s.Check r now).1.Status = statusDown
          ∧ (s.Check r now).2.1 = some (CheckError.httpError code))
        ∧ (code < 400 →
          (s.Check r now).1.Status = statusUp
          ∧ (s.Check r now).2.1 = none)) := by
  refine ⟨?_, ?_⟩
  · rintro rfl
    exact ⟨updateStatus_fst_Status s statusError now, rfl⟩
  · rintro code rfl
    refine ⟨?_, ?_⟩
    · intro hge
      refine ⟨?_, ?_⟩
      · simp only [Site.Check, if_pos hge]
        exact updateStatus_fst_Status s statusDown now
      · simp [Site.Check, if_pos hge]
    · intro hlt
      refine ⟨?_, ?_⟩
      · simp only [Site.Check, if_neg (Nat.not_le.mpr hlt)]
        exact updateStatus_fst_Status s statusUp now
      · simp [Site.Check, if_neg (Nat.not_le.mpr hlt)]

/-- Witness for C1: a concrete check receiving a 500 response. -/
theorem check_outcome_classification_witness :
    (demoSite.Check (HttpResult.response 500) 7).1.Status = statusDown
    ∧ (demoSite.Check (HttpResult.response 500) 7).2.1
        = some (CheckError.httpError 500) :=
  ((check_outcome_classification demoSite (HttpResult.response 500) 7).2 500
    rfl).1 (by decide)

/-- C2: registering a site whose ID is already present returns the
already-being-monitored error synchronously and leaves the manager —
registry contents and polling tasks — unchanged, with no log line. -/
theorem register_duplicate_noop (m : Manager) (site : Site)
    (h : (lookupSite m.sites site.ID).isSome = true) :
    (m.RegisterSite site).err
        = some ("site " ++ site.URL ++ " already being monitored")
    ∧ (m.RegisterSite site).mgr = m
    ∧ (m.RegisterSite site).logs = [] := by
  simp [Manager.RegisterSite, h]

/-- Witness for C2: re-registering `demoSite` into `demoMgr`. -/
theorem register_duplicate_noop_witness :
    (demoMgr.RegisterSite demoSite).err
        = some ("site " ++ demoSite.URL ++ " already being monitored")
    ∧ (demoMgr.RegisterSite demoSite).mgr = demoMgr
    ∧ (demoMgr.RegisterSite demoSite).logs = [] :=
  register_duplicate_noop demoMgr demoSite (by decide)

/-- C3: `updateStatus` runs under the site's own lock (the lock trace is
exactly acquire-then-release of that site's lock); a write of the current
status value leaves the site unchanged; a write of a different value sets
`Status` and stamps `StatusChangedAt` with the current time in the same
critical section; and, provided the clock `now` differs from the stored
stamp, `StatusChangedAt` changes if and only if `Status` changes. -/
theorem updateStatus_atomic_iff (s : Site) (st : String) (now : Nat)
    (hnow : now ≠ s.StatusChangedAt) :
    (s.updateStatus st now).2
        = [LockEvent.acquireSite s.ID, LockEvent.releaseSite s.ID]
    ∧ (s.Status = st → (s.updateStatus st now).1 = s)
    ∧ (s.Status ≠ st →
        (s.updateStatus st now).1.Status = st
        ∧ (s.updateStatus st now).1.StatusChangedAt = now)
    ∧ ((s.updateStatus st now).1.StatusChangedAt ≠ s.StatusChangedAt
        ↔ (s.updateStatus st now).1.Status ≠ s.Status) := by
  by_cases h : s.Status = st
  · refine ⟨rfl, ?_, ?_, ?_⟩
    · intro _
      simp [Site.updateStatus, h]
    · intro hne
      exact absurd h hne
    · simp [Site.updateStatus, h]
  · refine ⟨rfl, ?_, ?_, ?_⟩
    · intro heq
      exact absurd heq h
    · intro _
      simp [Site.updateStatus, h]
    · simp only [Site.updateStatus, if_pos h]
      constructor
      · intro _
        exact fun hst => h hst.symm
      · intro _
        exact hnow

/-- Witness for C3: a fresh site (stamp 0) written to `up` at time 7. -/
theorem updateStatus_atomic_iff_witness :
    (demoSite.updateStatus statusUp 7).2
        = [LockEvent.acquireSite demoSite.ID, LockEvent.releaseSite demoSite.ID]
    ∧ (demoSite.Status = statusUp → (demoSite.updateStatus statusUp 7).1 = demoSite)
    ∧ (demoSite.Status ≠ statusUp →
        (demoSite.updateStatus statusUp 7).1.Status = statusUp
        ∧ (demoSite.updateStatus statusUp 7).1.StatusChangedAt = 7)
    ∧ ((demoSite.updateStatus statusUp 7).1.StatusChangedAt
          ≠ demoSite.StatusChangedAt
        ↔ (demoSite.updateStatus statusUp 7).1.Status ≠ demoSite.Status) :=
  updateStatus_atomic_iff demoSite statusUp 7 (by decide)

/-- C4: the claim (and the spec) says revoking an unknown ID is a logged
no-op that returns normally, but the absent branch of `RevokeSite` logs
`site.URL` on the nil `*Site` zero value produced by the failed map
lookup — a nil-pointer dereference that aborts the call instead of
returning.  The model evaluates that branch to `none`. -/
theorem revoke_unknown_nil_deref :
    NewManager.RevokeSite 42 = none := rfl

/-- C5 counterexample: with site 1 registered, `RevokeSite 1` itself
already removes ID 1 from the registry — synchronously, with no
cancellation step of the polling task having run — refuting the claim
that cancellation observation by the task is the only deleting path. -/
theorem revoke_sync_removal_cex :
    (lookupSite demoMgr.sites 1).isSome = true
    ∧ (demoMgr.RevokeSite 1).map (fun r => lookupSite r.mgr.sites 1)
        = some none := by decide

/-- C5 amended: for an ID present in the registry, `RevokeSite` invokes
the cancellation handle of the ID's task AND deletes the entry from the
registry synchronously in the same call (the polling task deletes the ID
again when it observes cancellation, so revocation is an additional
removal path, not merely a signal). -/
theorem revoke_known_cancels_and_removes (m : Manager) (id : Int) (s0 : Site)
    (h : lookupSite m.sites id = some s0) :
    ∃ r, m.RevokeSite id = some r
      ∧ lookupSite r.mgr.sites id = none
      ∧ r.mgr.tasks = m.tasks.map
          (fun t => if t.id = id then { t with cancelled := true } else t)
      ∧ r.logs = ["Monitoring Stopped: " ++ s0.URL] := by
  refine ⟨{ mgr := { sites := deleteSite m.sites id
                     tasks := m.tasks.map fun t =>
                       if t.id = id then { t with cancelled := true } else t }
            trace := [LockEvent.acquireRegistry, LockEvent.releaseRegistry]
            logs := ["Monitoring Stopped: " ++ s0.URL] }, ?_, ?_, rfl, rfl⟩
  · simp only [Manager.RevokeSite, h]
  · exact lookupSite_deleteSite m.sites id

/-- Witness for C5 amended: revoking the registered site 1 of `demoMgr`. -/
theorem revoke_known_cancels_and_removes_witness :
    ∃ r, demoMgr.RevokeSite 1 = some r
      ∧ lookupSite r.mgr.sites 1 = none
      ∧ r.mgr.tasks = demoMgr.tasks.map
          (fun t => if t.id = 1 then { t with cancelled := true } else t)
      ∧ r.logs = ["Monitoring Stopped: " ++ demoSiteReg.URL] :=
  revoke_known_cancels_and_removes demoMgr 1 demoSiteReg (by decide)

/-- A disabled site's ticker wake is a no-op. -/
theorem tickWake_disabled (site : Site) (r : HttpResult) (now : Nat)
    (h : site.Enabled = false) :
    tickWake site r now = (site, false, []) := by
  simp [tickWake, h]

/-- C6: while a site's `Enabled` flag is false, no `Check` call occurs on
any number of ticker wakes and the site is left untouched (the task keeps
looping); once `Enabled` is set back to true, the very next tick performs
a `Check` — no re-registration involved. -/
theorem disabled_skips_all_checks (site : Site)
    (wakes : List (HttpResult × Nat)) (h : site.Enabled = false) :
    runTicks site wakes = (site, 0)
    ∧ ∀ r now, (tickWake { site with Enabled := true } r now).2.1 = true := by
  constructor
  · induction wakes with
    | nil => rfl
    | cons w rest ih =>
        obtain ⟨r, now⟩ := w
        simp [runTicks, tickWake_disabled site r now h, ih]
  · intro r now
    simp [tickWake]

/-- Witness for C6: a disabled copy of `demoSite` over two concrete wakes. -/
theorem disabled_skips_all_checks_witness :
    runTicks { demoSite with Enabled := false }
        [(HttpResult.response 200, 3), (HttpResult.transportError, 4)]
      = ({ demoSite with Enabled := false }, 0)
    ∧ ∀ r now,
        (tickWake { { demoSite with Enabled := false } with Enabled := true }
          r now).2.1 = true :=
  disabled_skips_all_checks { demoSite with Enabled := false }
    [(HttpResult.response 200, 3), (HttpResult.transportError, 4)] rfl

/-- C8 counterexample: `EnableSite` on the registered ID 1 acquires the
registry (manager) lock and its trace holds no site-lock event at all,
and on the unknown ID 99 it produces no log line — refuting the claim
that the flag flip happens under only the target's own lock and that an
unknown ID is a logged no-op. -/
theorem enable_registry_lock_cex :
    LockEvent.acquireRegistry ∈ (demoMgr.EnableSite 1).trace
    ∧ ((demoMgr.EnableSite 1).trace.all fun e =>
        match e with
        | LockEvent.acquireSite _ => false
        | _ => true) = true
    ∧ (demoMgr.EnableSite 99).logs = [] := by decide

/-- C8 amended: `EnableSite` and `DisableSite` flip the target's
`Enabled` flag while holding the registry (manager) lock — and only it,
never the target's own lock; on an unknown ID they are a silent no-op
(manager unchanged, no log line). -/
theorem enable_disable_under_registry_lock (m : Manager) (id : Int) :
    (m.EnableSite id).trace
        = [LockEvent.acquireRegistry, LockEvent.releaseRegistry]
    ∧ (m.DisableSite id).trace
        = [LockEvent.acquireRegistry, LockEvent.releaseRegistry]
    ∧ (lookupSite m.sites id = none →
        (m.EnableSite id).mgr = m ∧ (m.EnableSite id).logs = []
        ∧ (m.DisableSite id).mgr = m ∧ (m.DisableSite id).logs = [])
    ∧ (∀ s0, lookupSite m.sites id = some s0 →
        lookupSite (m.EnableSite id).mgr.sites id
            = some { s0 with Enabled := true }
        ∧ lookupSite (m.DisableSite id).mgr.sites id
            = some { s0 with Enabled := false }) := by
  refine ⟨?_, ?_, ?_, ?_⟩
  · cases hl : lookupSite m.sites id <;> simp [Manager.EnableSite, hl]
  · cases hl : lookupSite m.sites id <;> simp [Manager.DisableSite, hl]
  · intro hn
    simp [Manager.EnableSite, Manager.DisableSite, hn]
  · intro s0 hs
    constructor
    · simp [Manager.EnableSite, hs, lookupSite_setSiteEnabled]
    · simp [Manager.DisableSite, hs, lookupSite_setSiteEnabled]

/-- Witness for C8 amended: enabling/disabling site 1 of `demoMgr`. -/
theorem enable_disable_under_registry_lock_witness :
    (demoMgr.EnableSite 1).trace
        = [LockEvent.acquireRegistry, LockEvent.releaseRegistry]
    ∧ lookupSite (demoMgr.EnableSite 1).mgr.sites 1
        = some { demoSiteReg with Enabled := true }
    ∧ lookupSite (demoMgr.DisableSite 1).mgr.sites 1
        = some { demoSiteReg with Enabled := false } :=
  ⟨(enable_disable_under_registry_lock demoMgr 1).1,
   ((enable_disable_under_registry_lock demoMgr 1).2.2.2 demoSiteReg
     (by decide)).1,
   ((enable_disable_under_registry_lock demoMgr 1).2.2.2 demoSiteReg
     (by decide)).2⟩

/-- The operations of the repository that can touch a `Site` record, as
seen from one site: a `Check` (from its polling task), the flag flips of
`EnableSite`/`DisableSite`, storing the cancellation handle at
registration, and revocation (which signals the task but does not write
the site record). -/
inductive SiteOp where
  | check (r : HttpResult) (now : Nat)
  | enable
  | disable
  | register
  | revoke
deriving Repr, DecidableEq

/-- The effect of one operation on the site record. -/
def applySiteOp (s : Site) : SiteOp → Site
  | SiteOp.check r now => (s.Check r now).1
  | SiteOp.enable => { s with Enabled := true }
  | SiteOp.disable => { s with Enabled := false }
  | SiteOp.register => { s with cancelSet := true }
  | SiteOp.revoke => s

/-- A sequence of operations applied in order. -/
def applySiteOps (s : Site) : List SiteOp → Site
  | [] => s
  | op :: rest => applySiteOps (applySiteOp s op) rest

/-- After a `Check`, the status is one of up, down, error. -/
theorem check_Status_mem (s : Site) (r : HttpResult) (now : Nat) :
    (s.Check r now).1.Status
      ∈ ([statusUp, statusDown, statusError] : List String) := by
  cases r with
  | transportError =>
      simp [Site.Check, updateStatus_fst_Status, statusUp, statusDown,
        statusError]
  | response code =>
      by_cases h : 400 ≤ code
      · simp [Site.Check, if_pos h, updateStatus_fst_Status, statusUp,
          statusDown, statusError]
      · simp [Site.Check, if_neg h, updateStatus_fst_Status, statusUp,
          statusDown, statusError]

/-- C9 counterexample: a freshly constructed site's `Status` is the empty
string — not one of the four claimed values up, down, error, paused. -/
theorem newSite_status_outside_claimed_set :
    (NewSite 1 "http://a" 5 DefaultClientConfig).Status ∉
      ([statusUp, statusDown, statusError, statusPaused] : List String) := by
  decide

/-- C9 amended: along every operation sequence started from `NewSite`,
`Status` stays in the set consisting of the empty string (the value at
construction, which `NewSite` never sets) together with up, down and
error (the only values `Check` writes); paused is never assigned. -/
theorem status_range_invariant (id : Int) (url : String) (iv : Nat)
    (cfg : ClientConfig) (ops : List SiteOp) :
    (applySiteOps (NewSite id url iv cfg) ops).Status ∈
      (["", statusUp, statusDown, statusError] : List String) := by
  have key : ∀ (ops : List SiteOp) (s : Site),
      s.Status ∈ (["", statusUp, statusDown, statusError] : List String) →
      (applySiteOps s ops).Status ∈
        (["", statusUp, statusDown, statusError] : List String) := by
    intro ops
    induction ops with
    | nil => intro s hs; exact hs
    | cons op rest ih =>
        intro s hs
        cases op with
        | check r now =>
            apply ih
            have h3 := check_Status_mem s r now
            simp only [applySiteOp, List.mem_cons, List.not_mem_nil,
              or_false] at h3 ⊢
            tauto
        | enable => exact ih { s with Enabled := true } hs
        | disable => exact ih { s with Enabled := false } hs
        | register => exact ih { s with cancelSet := true } hs
        | revoke => exact ih s hs
  exact key ops (NewSite id url iv cfg) (by simp [NewSite])

/-- C10: `NewSite` always returns a site whose `Enabled` flag is true,
whatever the ID, URL, interval and client configuration. -/
theorem newSite_starts_enabled (id : Int) (url : String) (iv : Nat)
    (cfg : ClientConfig) :
    (NewSite id url iv cfg).Enabled = true := rfl

end Monitor

namespace Notification

/-- The first component of `notifyAll`: every observer is invoked with
the same state; the succeeding ones record it, the failing ones are
returned unchanged. -/
theorem notifyAll_fst (obs : List MockObserver) (st : State) :
    (notifyAll obs st).1
      = obs.map fun o =>
          if o.err = none then { o with state := some st } else o := by
  induction obs with
  | nil => rfl
  | cons o rest ih =>
      cases he : o.err with
      | none => simp [notifyAll, MockObserver.notify, he, ih]
      | some e => simp [notifyAll, MockObserver.notify, he, ih]

/-- The second component of `notifyAll`: exactly the failing observers'
errors, in order. -/
theorem notifyAll_snd (obs : List MockObserver) (st : State) :
    (notifyAll obs st).2 = obs.filterMap fun o => o.err := by
  induction obs with
  | nil => rfl
  | cons o rest ih =>
      cases he : o.err with
      | none => simp [notifyAll, MockObserver.notify, he, ih]
      | some e => simp [notifyAll, MockObserver.notify, he, ih]

/-- C7: `Notify` invokes every attached observer with the same state
value (succeeding observers record exactly that state), collects each
failing observer's error into the returned list without stopping the
remaining deliveries, and returns the empty list exactly when every
observer succeeded; in particular, with three attached observers of which
exactly the middle one fails, the result is a one-element error list and
the two others received the state. -/
theorem notify_fanout_isolation (obs : List MockObserver) (st : State) :
    ((Subject.mk obs).Notify st).1.observers
        = obs.map (fun o =>
            if o.err = none then { o with state := some st } else o)
    ∧ ((Subject.mk obs).Notify st).2 = obs.filterMap (fun o => o.err)
    ∧ (((Subject.mk obs).Notify st).2 = [] ↔ ∀ o ∈ obs, o.err = none)
    ∧ ((((NewSubject.Attach (newMockObserver none)).Attach
          (newMockObserver (some "notification error"))).Attach
          (newMockObserver none)).Notify st).2.length = 1
    ∧ ((((NewSubject.Attach (newMockObserver none)).Attach
          (newMockObserver (some "notification error"))).Attach
          (newMockObserver none)).Notify st).1.observers.map
        (fun o => o.state) = [some st, none, some st] := by
  refine ⟨notifyAll_fst obs st, notifyAll_snd obs st, ?_, ?_, ?_⟩
  · rw [show ((Subject.mk obs).Notify st).2 = (notifyAll obs st).2 from rfl,
      notifyAll_snd]
    exact List.filterMap_eq_nil_iff
  · simp [Subject.Notify, Subject.Attach, NewSubject, newMockObserver,
      notifyAll_snd]
  · simp [Subject.Notify, Subject.Attach, NewSubject, newMockObserver,
      notifyAll_fst]

end Notification
